import Mathlib

/-!
Shallow embedding of the goPhat Viewstamped-Replication core and server facade.

Sources embedded:
- `src/unnamed/part_000` (package `vr`): replica state, `doCommit`, `Prepare`,
  `handlePrepareOK`, `Heartbeat`, `SortTimes`, `IsMaster`, `BecomeMaster`,
  `sendAndRecvTo` gather loop, protocol constants.
- `src/vr/vrviewchange.go`: `DoViewChange`, `StartView`, `calcMasterView`.
- `src/phatRPC/phatRPC.go`: `getMasterId`, `GetMaster`, `RPCDB` dispatch.
- `src/unnamed/part_001` second half (package `phatlog`): the log.

Machine integers are modelled as `Nat`; wall-clock instants and durations as
`Nat` milliseconds (Go `time.Time` / `time.Duration`).  Timers are modelled by
the absolute deadline they would fire at (`Timer.Reset(d)` at instant `now`
becomes storing `now + d`).  Process-fatal assertion failures (`assert`) are
modelled by an `Option` result, `none` meaning the process dies.
-/

/-! ### Protocol constants (src/unnamed/part_000, lines 14-28) -/

def F : Nat := 1

/-- NREPLICAS = 2*F: number of replicas not counting the master. -/
def NREPLICAS : Nat := 2 * F

/-- LEASE = 2000ms. -/
def LEASE : Nat := 2000

def RENEW_FACTOR : Nat := 2

/-- MAX_CLOCK_DRIFT = LEASE/10. -/
def MAX_CLOCK_DRIFT : Nat := LEASE / 10

def MAX_TRIES : Nat := 2

/-! ### Replica status (src/unnamed/part_000, lines 30-35; `iota` order) -/

inductive Status
  | Normal
  | Recovery
  | ViewChange
deriving DecidableEq

/-! ### The log (package phatlog, src/unnamed/part_001)

`Log.Commits` is a Go map `uint -> command`; we model it as an association
list whose lookup returns the most recent binding, which matches map
overwrite semantics.  Commands (`interface{}` in Go) are modelled as
strings. -/

structure PhatLog where
  commits : List (Nat × String)
  maxIndex : Nat
deriving DecidableEq

/-- phatlog.EmptyLog. -/
def emptyLog : PhatLog := ⟨[], 0⟩

/-- phatlog.Log.Add: `l.Commits[index] = command; l.MaxIndex = Max(l.MaxIndex, index)`. -/
def PhatLog.add (l : PhatLog) (index : Nat) (command : String) : PhatLog :=
  ⟨(index, command) :: l.commits, max l.maxIndex index⟩

/-- phatlog.Log.GetCommand. -/
def PhatLog.getCommand (l : PhatLog) (index : Nat) : Option String :=
  (l.commits.find? (fun p => p.1 = index)).map Prod.snd

/-! ### Replica state (src/unnamed/part_000, lines 61-96)

`ReplicaState.Timer` (the follower lease timer) is modelled by the absolute
instant `leaseDeadline` it is set to fire at; `MasterState.Timer` (the master
renewal timer) by `renewalDeadline`.  `MasterState.Heartbeats` is a Go map
`uint -> time.Time`, modelled as an association list with overwriting
insert. -/

structure ReplicaState where
  view : Nat
  opNumber : Nat
  commitNumber : Nat
  replicaNumber : Nat
  status : Status
  normalView : Nat
  leaseDeadline : Nat
deriving DecidableEq

structure MasterState where
  a : Nat
  replies : Nat
  heartbeats : List (Nat × Nat)
  renewalDeadline : Nat
deriving DecidableEq

structure Replica where
  rstate : ReplicaState
  mstate : MasterState
  phatlog : PhatLog
deriving DecidableEq

/-- Replica.IsMaster: `r.Rstate.View % (NREPLICAS+1) == r.Rstate.ReplicaNumber`. -/
def Replica.isMaster (r : Replica) : Bool :=
  decide (r.rstate.view % (NREPLICAS + 1) = r.rstate.replicaNumber)

/-! ### Server facade (src/phatRPC/phatRPC.go) -/

def masterFailoverMsg : String := "Master Failover"

def notMasterMsg : String := "Not master node"

def cmdCREATE : String := "CREATE"

def cmdDELETE : String := "DELETE"

def cmdSET : String := "SET"

def cmdGET : String := "GET"

def cmdCHILDREN : String := "CHILDREN"

/-- Server.getMasterId (phatRPC.go line 104): `View % (vr.NREPLICAS)`.
Note the modulus is `NREPLICAS` (= 2F), not the group size `NREPLICAS+1`. -/
def getMasterId (r : Replica) : Nat :=
  r.rstate.view % NREPLICAS

/-- Server.GetMaster (phatRPC.go lines 108-116): error when status is not
Normal, otherwise reply with `getMasterId`. -/
def GetMaster (r : Replica) : Except String Nat :=
  if r.rstate.status ≠ Status.Normal then Except.error masterFailoverMsg
  else Except.ok (getMasterId r)

/-- How RPCDB (phatRPC.go lines 119-158) dispatches a client command. -/
inductive DBDispatch
  | masterFailover
  | notMaster (masterId : Nat)
  | viaVR
  | localRead
deriving DecidableEq

/-- Server.RPCDB dispatch logic (phatRPC.go lines 119-158): reject when not
Normal; redirect when `ReplicaNumber ≠ getMasterId`; route CREATE, DELETE,
SET, GET through `RunVR`; serve every other command directly from the local
DB.  The source performs no lease check whatsoever on the local-read path
(the TODO at lines 146-148 admits this). -/
def RPCDB (r : Replica) (cmd : String) : DBDispatch :=
  if r.rstate.status ≠ Status.Normal then DBDispatch.masterFailover
  else if r.rstate.replicaNumber ≠ getMasterId r then DBDispatch.notMaster (getMasterId r)
  else if cmd = cmdCREATE ∨ cmd = cmdDELETE ∨ cmd = cmdSET ∨ cmd = cmdGET then DBDispatch.viaVR
  else DBDispatch.localRead

/-- The spec's precondition for a locally served read (spec 4.7): the local
replica is the master of its view, in Normal status, with a master-side
lease deadline in the future. -/
def leaseReadOk (r : Replica) (now : Nat) : Bool :=
  r.isMaster && decide (r.rstate.status = Status.Normal)
    && decide (now < r.rstate.leaseDeadline)

/-! ### Recovery entry and commit (src/unnamed/part_000) -/

/-- Modelled from the spec: `Replica.PrepareRecovery` lives in a recovery
source file that is not under src/ (only its callers are).  Per spec 4.6 the
recovering replica enters Recovery status (and then broadcasts
`Recovery{replica_number, nonce}`, which does not change the local VR
fields).  Locally this is the status transition. -/
def prepareRecovery (r : Replica) : Replica :=
  { r with rstate := { r.rstate with status := Status.Recovery } }

/-- One `CommitFunc`/`CommitNumber++` step of doCommit (part_000 lines
183-187); the applier call is an external effect, the replica-state effect is
the increment. -/
def commitOne (r : Replica) : Replica :=
  { r with rstate := { r.rstate with commitNumber := r.rstate.commitNumber + 1 } }

/-- Replica.doCommit (part_000 lines 167-188), fuelled.  The Go function
recurses on indices strictly below `cn` (the catch-up loop
`for i := CommitNumber+1; i < cn; i++ { doCommit(i) }`), so fuel `cn`
bounds the recursion depth; the fuel-0 case coincides with the Go `cn = 0`
case (`cn <= CommitNumber` always holds there). -/
def doCommitF : Nat → Replica → Nat → Replica
  | 0, r, _ => r
  | fuel + 1, r, cn =>
    if cn ≤ r.rstate.commitNumber then r
    else if r.rstate.opNumber < cn then prepareRecovery r
    else if r.rstate.commitNumber + 1 < cn then
      commitOne
        ((List.range' (r.rstate.commitNumber + 1) (cn - (r.rstate.commitNumber + 1))).foldl
          (doCommitF fuel) r)
    else commitOne r

def Replica.doCommit (r : Replica) (cn : Nat) : Replica :=
  doCommitF cn r cn

/-! ### Prepare RPC (src/unnamed/part_000, lines 191-236) -/

structure PrepareArgs where
  view : Nat
  command : String
  opNumber : Nat
  commitNumber : Nat
deriving DecidableEq

structure PrepareReply where
  view : Nat
  opNumber : Nat
  replicaNumber : Nat
  lease : Nat
deriving DecidableEq

/-- The error values RPCReplica.Prepare can return. -/
inductive PrepErr
  | recovering
  | wrongView
  | notNormal
  | oldOpNumber
  | outOfSync
deriving DecidableEq

/-- RPCReplica.Prepare.  `Rstate.ExtendLease(reply.Lease)` resets the follower
lease timer to fire at the granted instant, modelled by storing the deadline.
`addLog` appends at the already-incremented `OpNumber` (part_000 line 158).
The reply's View and OpNumber fields are filled in after `doCommit`, from the
post-state. -/
def Replica.prepare (r : Replica) (args : PrepareArgs) (now : Nat) :
    Replica × Except PrepErr PrepareReply :=
  if r.rstate.view < args.view then (prepareRecovery r, Except.error PrepErr.recovering)
  else if args.view < r.rstate.view then (r, Except.error PrepErr.wrongView)
  else if r.rstate.status ≠ Status.Normal then (r, Except.error PrepErr.notNormal)
  else if args.opNumber ≤ r.rstate.opNumber then (r, Except.error PrepErr.oldOpNumber)
  else if r.rstate.opNumber + 1 < args.opNumber then
    (prepareRecovery r, Except.error PrepErr.outOfSync)
  else
    let lease := now + LEASE
    let r1 : Replica :=
      { r with rstate := { r.rstate with leaseDeadline := lease,
                                         opNumber := r.rstate.opNumber + 1 } }
    let r2 : Replica := { r1 with phatlog := r1.phatlog.add r1.rstate.opNumber args.command }
    let r3 := r2.doCommit args.commitNumber
    (r3, Except.ok ⟨r3.rstate.view, r3.rstate.opNumber, r.rstate.replicaNumber, lease⟩)

/-! ### Heartbeats and the master lease (src/unnamed/part_000, lines 263-315) -/

/-- Overwriting insert into the heartbeats map `uint -> time.Time`. -/
def hbInsert : List (Nat × Nat) → Nat → Nat → List (Nat × Nat)
  | [], k, v => [(k, v)]
  | (k1, v1) :: rest, k, v =>
    if k1 = k then (k, v) :: rest else (k1, v1) :: hbInsert rest k v

def hbLookup : List (Nat × Nat) → Nat → Option Nat
  | [], _ => none
  | (k1, v1) :: rest, k => if k1 = k then some v1 else hbLookup rest k

def insertSorted (x : Nat) : List Nat → List Nat
  | [] => [x]
  | y :: ys => if x ≤ y then x :: y :: ys else y :: insertSorted x ys

/-- Modelled from the spec: the source's `SortTimes` (part_000 lines 287-299)
ranges over an undefined variable, collects map keys in place of values and
returns nothing — the "incorrect sort (keys used in place of values)" the
spec flags as a source bug.  Per the spec's stated intent it sorts the grant
timestamps (the map's values) in ascending `Before` order. -/
def sortTimes (l : List Nat) : List Nat :=
  l.foldr insertSorted []

/-- `Mstate.ExtendNeedsRenewal(newTime)` (part_000 lines 268-270): reset the
master renewal timer to fire after `(newTime - now) / RENEW_FACTOR`, i.e. at
the instant `now + (newTime - now) / RENEW_FACTOR` (the source expression is
written with broken `time.Time` arithmetic; this is the intent its comment at
lines 18-20 describes). -/
def renewalAt (now newTime : Nat) : Nat :=
  now + (newTime - now) / RENEW_FACTOR

/-- Replica.Heartbeat (part_000 lines 301-311).  `none` models a fatal
`assert` failure: the function asserts `IsMaster` on entry and asserts that
the sorted times number exactly NREPLICAS.  The stored grant timestamp is
`newTime`; the source call sites pass no time argument at all (a wrong-arity
call the spec flags as a bug), the parameter here follows the declared
signature `Heartbeat(replica uint, newTime time.Time)`. -/
def Replica.heartbeat (r : Replica) (replica newTime now : Nat) : Option Replica :=
  if r.isMaster = true then
    if (sortTimes ((hbInsert r.mstate.heartbeats replica newTime).map Prod.snd)).length =
        NREPLICAS then
      some { r with
        mstate := { r.mstate with
          heartbeats := hbInsert r.mstate.heartbeats replica newTime,
          renewalDeadline := renewalAt now
            ((sortTimes ((hbInsert r.mstate.heartbeats replica newTime).map Prod.snd)).getD F 0 -
              MAX_CLOCK_DRIFT) },
        rstate := { r.rstate with
          leaseDeadline :=
            (sortTimes ((hbInsert r.mstate.heartbeats replica newTime).map Prod.snd)).getD F 0 -
              MAX_CLOCK_DRIFT } }
    else none
  else none

/-- Replica.handlePrepareOK (part_000 lines 419-454).  Result: `none` for a
fatal assert inside `Heartbeat`, otherwise the new replica plus (the bool the
handler returns to the transport, whether a Commit broadcast was issued by
`sendCommitMsgs`).  Note the source invokes `Heartbeat` after the view check
but before the op-number and bitmap checks, so even replies that are then
dropped update the heartbeats map; the call `r.Heartbeat(reply.ReplicaNumber)`
is missing its time argument in the source (spec-flagged bug), modelled here
as passing the granted `reply.Lease` per the declared signature and spec
intent. -/
def Replica.handlePrepareOK (r : Replica) (now : Nat) (reply : PrepareReply) :
    Option (Replica × Bool × Bool) :=
  if reply.view ≠ r.rstate.view then some (r, false, false)
  else
    match r.heartbeat reply.replicaNumber reply.lease now with
    | none => none
    | some ra =>
      if reply.opNumber ≠ ra.rstate.opNumber then some (ra, false, false)
      else if (1 <<< reply.replicaNumber) &&& ra.mstate.replies ≠ 0 then
        some (ra, false, false)
      else
        let rb : Replica :=
          { ra with mstate := { ra.mstate with
              replies := ra.mstate.replies ||| (1 <<< reply.replicaNumber),
              a := ra.mstate.a + 1 } }
        if rb.mstate.a ≠ F then some (rb, decide (F ≤ rb.mstate.a), false)
        else some (rb.doCommit (rb.rstate.commitNumber + 1), true, true)

/-- Replica.BecomeMaster (part_000 lines 358-366): `Mstate.Reset()` then
`ExtendNeedsRenewal(now + LEASE - MAX_CLOCK_DRIFT)` and
`ExtendLease(now + LEASE - MAX_CLOCK_DRIFT)` (the `assert(IsMaster)` is kept
by callers; state effect shown here). -/
def Replica.becomeMaster (r : Replica) (now : Nat) : Replica :=
  { r with
    mstate := { r.mstate with
                a := 0, replies := 0,
                renewalDeadline := renewalAt now (now + (LEASE - MAX_CLOCK_DRIFT)) },
    rstate := { r.rstate with leaseDeadline := now + (LEASE - MAX_CLOCK_DRIFT) } }

/-! ### View change (src/vr/vrviewchange.go) -/

structure DoViewChangeArgs where
  view : Nat
  replicaNumber : Nat
  log : PhatLog
  normalView : Nat
  opNumber : Nat
  commitNumber : Nat
deriving DecidableEq

/-- The zero value of `DoViewChangeArgs`, which is what unfilled slots of the
fixed array `Vcstate.DoViewChangeMsgs [NREPLICAS+1]DoViewChangeArgs` hold
(the nil log pointer is modelled as the empty log). -/
def dvcDefault : DoViewChangeArgs := ⟨0, 0, emptyLog, 0, 0, 0⟩

structure StartViewArgs where
  view : Nat
  log : PhatLog
  opNumber : Nat
  commitNumber : Nat
deriving DecidableEq

/-- RPCReplica.StartView (vrviewchange.go lines 134-149): unconditionally
adopt the carried log, op number and commit number, set Normal, and reset
the follower lease timer (the source's `ExtendLease()` call passes no
argument; per spec 4.5 step 4 the timer is reset to a fresh LEASE).  The
handler performs no view comparison at all. -/
def Replica.startView (r : Replica) (args : StartViewArgs) (now : Nat) : Replica :=
  { r with
    phatlog := args.log,
    rstate := { r.rstate with
      opNumber := args.opNumber,
      commitNumber := args.commitNumber,
      status := Status.Normal,
      leaseDeadline := now + LEASE } }

/-- Accumulator of calcMasterView's local variables (vrviewchange.go lines
154-158). -/
structure CMVAcc where
  maxOp : Nat
  maxCommit : Nat
  maxIdx : Nat
  maxNormalView : Nat
  maxView : Nat
deriving DecidableEq

/-- Replica.calcMasterView (vrviewchange.go lines 151-183).  `msgs` is the
contents of `Vcstate.DoViewChangeMsgs` (passed explicitly; slots never
written by `DoViewChange` hold `dvcDefault`).  Faithful to the source: the
initial dead store `View = msgs[0].View` is overwritten by `maxView`; the
selection condition reads `maxNormalView` but no branch ever updates it, and
indices equal to the replica's own number are skipped for the log/op and
commit selection (only `maxView` sees them). -/
def Replica.calcMasterView (r : Replica) (msgs : List DoViewChangeArgs) : Replica :=
  let acc := (List.range (NREPLICAS + 1)).foldl
    (fun (a : CMVAcc) (i : Nat) =>
      let m := msgs.getD i dvcDefault
      let a := if a.maxView < m.view then { a with maxView := m.view } else a
      if i ≠ r.rstate.replicaNumber then
        let a :=
          if a.maxNormalView < m.normalView ∨
              (m.normalView = a.maxNormalView ∧ a.maxOp < m.opNumber) then
            { a with maxOp := m.opNumber, maxIdx := i }
          else a
        if a.maxCommit < m.commitNumber then { a with maxCommit := m.commitNumber } else a
      else a)
    ⟨0, 0, 0, 0, 0⟩
  { r with
    phatlog := (msgs.getD acc.maxIdx dvcDefault).log,
    rstate := { r.rstate with
      view := acc.maxView,
      opNumber := acc.maxOp,
      commitNumber := acc.maxCommit } }

/-- View-change scratch state of the new master (the `DoViewChange` parts of
`ViewChangeState`, part_000 lines 82-89). -/
structure VCState where
  doViewChangeMsgs : List DoViewChangeArgs
  doViewReplies : Nat
  doViews : Nat
deriving DecidableEq

def vcInit : VCState := ⟨List.replicate (NREPLICAS + 1) dvcDefault, 0, 0⟩

/-- RPCReplica.DoViewChange (vrviewchange.go lines 98-132): dedupe by the
sender bitmap, store the message, and when `DoViews == F` run
`calcMasterView`, set Normal and `BecomeMaster` (the subsequent `StartView`
broadcast does not change local state).  The master itself never stores a
message of its own: its `StartViewChange` handler short-circuits the unicast
without recording its state, so its slot stays `dvcDefault`. -/
def Replica.doViewChange (r : Replica) (vc : VCState) (args : DoViewChangeArgs)
    (now : Nat) : VCState × Option Replica :=
  if (1 <<< args.replicaNumber) &&& vc.doViewReplies ≠ 0 then (vc, none)
  else
    let vc2 : VCState :=
      { doViewChangeMsgs := vc.doViewChangeMsgs.set args.replicaNumber args,
        doViewReplies := vc.doViewReplies ||| (1 <<< args.replicaNumber),
        doViews := vc.doViews + 1 }
    if vc2.doViews = F then
      let m := r.calcMasterView vc2.doViewChangeMsgs
      let m2 : Replica := { m with rstate := { m.rstate with status := Status.Normal } }
      (vc2, some (m2.becomeMaster now))
    else (vc2, none)

/-- The spec's selection rule for the view-change state (spec 4.5 step 3 and
the claim): among the received DoViewChange messages together with the new
master's own state, pick the one with the largest `normal_view`, breaking
ties by the largest `op_number`. -/
def specBetter (a b : DoViewChangeArgs) : Bool :=
  decide (a.normalView < b.normalView) ||
    (decide (a.normalView = b.normalView) && decide (a.opNumber < b.opNumber))

def specChooseLogOp (received : List DoViewChangeArgs) (own : DoViewChangeArgs) :
    DoViewChangeArgs :=
  received.foldl (fun best m => if specBetter best m then m else best) own

/-! ### The broadcast-and-gather loop (src/unnamed/part_000, lines 509-594)

The gather goroutine consumes `ReplicaCall` events from `callChan`; we model
the sequence of events it will receive as a list.  A failed call whose
`Tries` has not reached MAX_TRIES schedules a retry whose outcome appears as
a later event; a failed call with `Tries >= MAX_TRIES` is dropped — the
`i++` in that branch is commented out in the source, so neither failure kind
advances `i`.  A successful call runs the handler (while `callHandler` is
still set) and advances `i`.  The loop exits when `i` reaches
`N = len(replicas)`; if the event list is exhausted first, the goroutine
blocks on `callChan` forever. -/

inductive CallEvent
  | success (handlerTrue : Bool)
  | failure (tries : Nat)
deriving DecidableEq

structure GatherSt where
  i : Nat
  callHandler : Bool
  doneFired : Bool
deriving DecidableEq

def gatherStep (st : GatherSt) (e : CallEvent) : GatherSt :=
  match e with
  | CallEvent.failure _ => st
  | CallEvent.success h =>
    let st2 := if st.callHandler && h then { st with doneFired := true, callHandler := false }
               else st
    { st2 with i := st2.i + 1 }

/-- Run the gather loop on the events; the second component is true when the
loop exited (reached `i = N`) and false when it is blocked waiting on
`callChan` with no event ever coming. -/
def gatherLoop (N : Nat) : GatherSt → List CallEvent → GatherSt × Bool
  | st, [] => if N ≤ st.i then (st, true) else (st, false)
  | st, e :: rest => if N ≤ st.i then (st, true) else gatherLoop N (gatherStep st e) rest

/-- Whether `doneChan` ever fires in `sendAndRecvTo`: either the handler
returned true during the loop, or the loop exited with the handler never
satisfied and the post-loop `if callHandler { doneChan <- 0 }` fired. -/
def sendAndRecvDone (N : Nat) (events : List CallEvent) : Bool :=
  let res := gatherLoop N ⟨0, true, false⟩ events
  if res.2 && res.1.callHandler then true else res.1.doneFired

/-- The complete event schedule in which both peers fail every attempt:
each initial send fails with `Tries = 1`, each backoff retry fails with
`Tries = 2 = MAX_TRIES` and is then dropped without a further retry. -/
def allFailEvents : List CallEvent :=
  [CallEvent.failure 1, CallEvent.failure 1, CallEvent.failure 2, CallEvent.failure 2]

/-- The k-th largest element of a list of instants (the spec's description of
the master lease computation): index `length - k` of the ascending sort. -/
def kthLargest (k : Nat) (l : List Nat) : Nat :=
  (sortTimes l).getD (l.length - k) 0

/-! ### Concrete replica states used as inputs below -/

def cmdA : String := "a"

def cmdB : String := "b"

def cmdW : String := "w"

def cmdX : String := "x"

/-- A master replica (replica 0 of view 0) in Normal status whose lease
deadline 5 is already in the past at instant 10. -/
def rC1 : Replica :=
  ⟨⟨0, 1, 1, 0, Status.Normal, 0, 5⟩, ⟨0, 0, [(1, 2500), (2, 2600)], 0⟩,
    PhatLog.add emptyLog 1 cmdA⟩

/-- The new master of view 2 (replica 2) during a view change: it was Normal
in view 1 with op number 7 and commit number 5. -/
def rC2 : Replica :=
  ⟨⟨2, 7, 5, 2, Status.ViewChange, 1, 0⟩, ⟨0, 0, [], 0⟩,
    PhatLog.add (PhatLog.add emptyLog 6 cmdA) 7 cmdB⟩

/-- The DoViewChange message replica 0 sends to the new master: it has an
empty log, op number 0, commit number 0 and was last Normal in view 0. -/
def argsC2 : DoViewChangeArgs := ⟨2, 0, emptyLog, 0, 0, 0⟩

/-- rC2's own state packaged the way `StartViewChange` lines 85 builds its
DoViewChange message (`{view, replica_number, log, normal_view, op_number,
commit_number}`), for the claim's "own state counted implicitly". -/
def ownC2 : DoViewChangeArgs := ⟨2, 2, rC2.phatlog, 1, 7, 5⟩

/-- A backup that has applied ops up to commit number 5. -/
def rC3 : Replica :=
  ⟨⟨1, 5, 5, 1, Status.Normal, 0, 2000⟩, ⟨0, 0, [], 0⟩,
    PhatLog.add (PhatLog.add emptyLog 4 cmdA) 5 cmdB⟩

/-- A StartView from a new master whose adopted commit number is only 3. -/
def svC3 : StartViewArgs := ⟨1, PhatLog.add emptyLog 3 cmdA, 3, 3⟩

/-- A master (replica 0 of view 0) with an op in flight (op 2, commit 1),
no acks yet, and both followers' earlier grants recorded. -/
def rC4 : Replica :=
  ⟨⟨0, 2, 1, 0, Status.Normal, 0, 2000⟩, ⟨0, 0, [(1, 2500), (2, 2600)], 0⟩,
    PhatLog.add (PhatLog.add emptyLog 1 cmdA) 2 cmdB⟩

/-- A stale PrepareOk: right view, but for op 1 while the master is at op 2. -/
def replyC4 : PrepareReply := ⟨0, 1, 1, 3000⟩

/-- A follower of view 0 at op 3 = commit 3. -/
def rC5 : Replica :=
  ⟨⟨0, 3, 3, 1, Status.Normal, 0, 2000⟩, ⟨0, 0, [], 0⟩, PhatLog.add emptyLog 3 cmdA⟩

/-- A Prepare for the next op 4 whose commit number 9 exceeds it. -/
def argsC5 : PrepareArgs := ⟨0, cmdX, 4, 9⟩

/-- A well-formed Prepare for the next op 4 with commit number 4. -/
def argsW5 : PrepareArgs := ⟨0, cmdW, 4, 4⟩

/-- A follower that has advanced to view 2. -/
def rW6 : Replica :=
  ⟨⟨2, 3, 3, 1, Status.Normal, 1, 2000⟩, ⟨0, 0, [], 0⟩, PhatLog.add emptyLog 3 cmdA⟩

/-- A Prepare from the deposed master of view 1. -/
def argsW6 : PrepareArgs := ⟨1, cmdX, 4, 3⟩

/-- A master (replica 0 of view 0) holding one earlier grant from replica 1. -/
def rC7 : Replica :=
  ⟨⟨0, 1, 1, 0, Status.Normal, 0, 2000⟩, ⟨1, 2, [(1, 2600)], 1300⟩,
    PhatLog.add emptyLog 1 cmdA⟩

/-- Another master of view 0 holding one earlier grant from replica 2. -/
def rW7 : Replica :=
  ⟨⟨0, 1, 1, 0, Status.Normal, 0, 2000⟩, ⟨1, 4, [(2, 2500)], 1300⟩,
    PhatLog.add emptyLog 1 cmdA⟩

/-- Replica 2 at view 2 in Normal status: the replica core's master
(`2 % 3 = 2`), yet the facade computes `2 % 2 = 0`. -/
def rC8 : Replica :=
  ⟨⟨2, 4, 4, 2, Status.Normal, 2, 2000⟩, ⟨0, 0, [], 0⟩, PhatLog.add emptyLog 4 cmdA⟩

/-! ## Theorems -/

/-- C1: the server facade's dispatch serves the read-only command CHILDREN
directly from the local DB at a master whose lease deadline (5) is already
in the past at instant 10 — the local-read path performs no lease check, so
a read that does not meet the claimed precondition is nevertheless served
locally. -/
theorem rpcdb_read_ignores_lease :
    RPCDB rC1 cmdCHILDREN = DBDispatch.localRead ∧ leaseReadOk rC1 10 = false := by
  decide

/-- C2: receiving its F-th (here: single) DoViewChange message, the new
master adopts op number 0 and commit number 0 from the sender's empty state,
although the selection rule of the claim — largest `normal_view`, ties by
largest `op_number`, over the received messages together with its own state —
picks its own state with `normal_view` 1 and op number 7.  The code skips the
master's own slot entirely and its `maxNormalView` variable is never
updated. -/
theorem doViewChange_adopts_wrong_log :
    ((rC2.doViewChange vcInit argsC2 1000).2.map
        (fun m => (m.rstate.opNumber, m.rstate.commitNumber)) = some (0, 0)) ∧
      (specChooseLogOp [argsC2] ownC2).normalView = 1 ∧
      (specChooseLogOp [argsC2] ownC2).opNumber = 7 := by
  decide

/-- C3: a StartView carrying commit number 3, processed by a replica whose
commit number is 5, sets the commit number to 3 — `commit_number` decreases
on this protocol step. -/
theorem startView_decreases_commitNumber :
    (rC3.startView svC3 1000).rstate.commitNumber < rC3.rstate.commitNumber := by
  decide

/-- C4: a PrepareOk with the right view but a stale op number (1, while the
master is at op 2) is dropped — the handler returns false and records no
ack — yet the master's heartbeats map is updated for that peer (2500 to
3000) because the source calls `Heartbeat` before the op-number and bitmap
checks. -/
theorem handlePrepareOK_heartbeat_on_dropped_reply :
    ((rC4.handlePrepareOK 1000 replyC4).map
        (fun x => (hbLookup x.1.mstate.heartbeats 1, x.1.mstate.replies, x.2.1)) =
      some (some 3000, 0, false)) ∧
      hbLookup rC4.mstate.heartbeats 1 = some 2500 := by
  decide

/-- C5 counterexample: a Prepare accepted by the follower (same view, Normal,
op number 4 = 3 + 1) whose commit number 9 exceeds the new op number does
not apply committed operations up to `min(args.commit_number, op_number) = 4`:
the replica keeps commit number 3 and drops into Recovery instead. -/
theorem prepare_overshoot_no_min_commit :
    (rC5.prepare argsC5 100).1.rstate.commitNumber ≠
        min argsC5.commitNumber (rC5.prepare argsC5 100).1.rstate.opNumber ∧
      (rC5.prepare argsC5 100).1.rstate.status = Status.Recovery := by
  decide

/-- C7 counterexample: on a heartbeat receipt the master's new lease deadline
is 2800 (the F-th largest grant 3000 minus MAX_CLOCK_DRIFT 200) and the
replica lease timer is extended to 2800, but the master renewal timer is
reset to 1900 = now + (2800 - now)/RENEW_FACTOR, not to 2800 as the claim
states. -/
theorem heartbeat_renewal_not_lease :
    ((rC7.heartbeat 2 3000 1000).map
        (fun s => (s.mstate.renewalDeadline, s.rstate.leaseDeadline)) =
      some (1900, 2800)) ∧ (1900 : Nat) ≠ 2800 := by
  decide

/-- C8: at view 2 the facade's `getMasterId` answers `2 % NREPLICAS = 0`
while the group size is `NREPLICAS + 1 = 3` and `2 % 3 = 2`; replica 2 is
the replica core's master (`IsMaster` holds) and yet its own facade
redirects a Submit to "master" 0. -/
theorem getMasterId_wrong_modulus :
    getMasterId rC8 = 0 ∧ rC8.rstate.view % (NREPLICAS + 1) = 2 ∧
      rC8.isMaster = true ∧ RPCDB rC8 cmdGET = DBDispatch.notMaster 0 := by
  decide

/-- C9: under the complete failure schedule — both peers fail every attempt
and exhaust MAX_TRIES — the gather loop never advances `i` (the `i++` in the
exhausted branch is commented out in the source), so it stays blocked on the
call channel and the done channel never fires: `sendAndRecvTo` hangs instead
of returning. -/
theorem sendAndRecv_done_can_hang :
    sendAndRecvDone NREPLICAS allFailEvents = false ∧
      (gatherLoop NREPLICAS ⟨0, true, false⟩ allFailEvents).2 = false := by
  decide

/-! ### Net effect of doCommit -/

lemma doCommit_le (r : Replica) (cn : Nat) (h : cn ≤ r.rstate.commitNumber) :
    r.doCommit cn = r := by
  unfold Replica.doCommit
  cases cn with
  | zero => rfl
  | succ k =>
    simp only [doCommitF]
    rw [if_pos h]

lemma doCommit_catchup (len : Nat) :
    ∀ (fuel : Nat) (r : Replica), r.rstate.commitNumber + len ≤ r.rstate.opNumber →
      1 ≤ fuel →
      (List.range' (r.rstate.commitNumber + 1) len).foldl (doCommitF fuel) r =
        { r with rstate := { r.rstate with commitNumber := r.rstate.commitNumber + len } } := by
  induction len with
  | zero =>
    intro fuel r _ _
    simp
  | succ n ih =>
    intro fuel r h hf
    obtain ⟨f, rfl⟩ : ∃ f, fuel = f + 1 := ⟨fuel - 1, by omega⟩
    obtain ⟨⟨v, op, c, rn, st, nv, ld⟩, ms, pl⟩ := r
    simp only at h ⊢
    rw [List.range'_succ, List.foldl_cons]
    have hstep : doCommitF (f + 1) ⟨⟨v, op, c, rn, st, nv, ld⟩, ms, pl⟩ (c + 1) =
        ⟨⟨v, op, c + 1, rn, st, nv, ld⟩, ms, pl⟩ := by
      simp only [doCommitF]
      rw [if_neg (by simp), if_neg (by simp; omega), if_neg (by simp)]
      rfl
    rw [hstep]
    have hrec := ih (f + 1) ⟨⟨v, op, c + 1, rn, st, nv, ld⟩, ms, pl⟩ (by simp; omega)
      (by omega)
    simp only at hrec
    rw [hrec]
    have hc : c + 1 + n = c + (n + 1) := by omega
    rw [hc]

lemma doCommit_mid (r : Replica) (cn : Nat) (h1 : r.rstate.commitNumber < cn)
    (h2 : cn ≤ r.rstate.opNumber) :
    r.doCommit cn = { r with rstate := { r.rstate with commitNumber := cn } } := by
  unfold Replica.doCommit
  obtain ⟨k, rfl⟩ : ∃ k, cn = k + 1 := ⟨cn - 1, by omega⟩
  obtain ⟨⟨v, op, c, rn, st, nv, ld⟩, ms, pl⟩ := r
  simp only at h1 h2 ⊢
  simp only [doCommitF]
  rw [if_neg (by simp; omega), if_neg (by simp; omega)]
  by_cases h3 : c + 1 < k + 1
  · rw [if_pos (by simp; omega)]
    have hfold := doCommit_catchup (k + 1 - (c + 1)) k ⟨⟨v, op, c, rn, st, nv, ld⟩, ms, pl⟩
      (by simp; omega) (by omega)
    simp only at hfold
    rw [hfold]
    simp only [commitOne]
    have hc : c + (k + 1 - (c + 1)) + 1 = k + 1 := by omega
    rw [hc]
  · rw [if_neg (by simp; omega)]
    simp only [commitOne]
    have hc : c + 1 = k + 1 := by omega
    rw [hc]

lemma doCommit_overshoot (r : Replica) (cn : Nat) (h1 : r.rstate.commitNumber < cn)
    (h2 : r.rstate.opNumber < cn) :
    r.doCommit cn = prepareRecovery r := by
  unfold Replica.doCommit
  obtain ⟨k, rfl⟩ : ∃ k, cn = k + 1 := ⟨cn - 1, by omega⟩
  simp only [doCommitF]
  rw [if_neg (by omega), if_pos h2]

/-- C5 (amended): a Prepare accepted by a follower (same view, Normal status,
op number exactly one past the local one, under the documented invariant
`commit_number ≤ op_number`) grants a lease `now + LEASE` in the reply,
resets the follower lease timer to that grant, increments the op number by
one and appends the command there; it applies newly committed operations up
to `args.commit_number` when that does not exceed the new op number, and
otherwise leaves `commit_number` unchanged and initiates recovery. -/
theorem prepare_accept_updates (r : Replica) (args : PrepareArgs) (now : Nat)
    (hv : args.view = r.rstate.view) (hs : r.rstate.status = Status.Normal)
    (ho : args.opNumber = r.rstate.opNumber + 1)
    (hoc : r.rstate.commitNumber ≤ r.rstate.opNumber) :
    (r.prepare args now).2 =
        Except.ok ⟨r.rstate.view, r.rstate.opNumber + 1, r.rstate.replicaNumber, now + LEASE⟩ ∧
      (r.prepare args now).1.rstate.leaseDeadline = now + LEASE ∧
      (r.prepare args now).1.rstate.opNumber = r.rstate.opNumber + 1 ∧
      (r.prepare args now).1.phatlog = r.phatlog.add (r.rstate.opNumber + 1) args.command ∧
      (args.commitNumber ≤ r.rstate.opNumber + 1 →
        (r.prepare args now).1.rstate.commitNumber =
            max r.rstate.commitNumber args.commitNumber ∧
          (r.prepare args now).1.rstate.status = Status.Normal) ∧
      (r.rstate.opNumber + 1 < args.commitNumber →
        (r.prepare args now).1.rstate.commitNumber = r.rstate.commitNumber ∧
          (r.prepare args now).1.rstate.status = Status.Recovery) := by
  obtain ⟨⟨v, op, c, rn, st, nv, ld⟩, ms, pl⟩ := r
  obtain ⟨av, acmd, aop, acn⟩ := args
  simp only at hv hs ho hoc ⊢
  have hv2 := hv.symm
  subst hv2 hs ho
  have hb : Replica.prepare ⟨⟨v, op, c, rn, Status.Normal, nv, ld⟩, ms, pl⟩
      ⟨v, acmd, op + 1, acn⟩ now =
      (Replica.doCommit
          ⟨⟨v, op + 1, c, rn, Status.Normal, nv, now + LEASE⟩, ms, PhatLog.add pl (op + 1) acmd⟩
          acn,
        Except.ok
          ⟨(Replica.doCommit
                ⟨⟨v, op + 1, c, rn, Status.Normal, nv, now + LEASE⟩, ms,
                  PhatLog.add pl (op + 1) acmd⟩ acn).rstate.view,
            (Replica.doCommit
                ⟨⟨v, op + 1, c, rn, Status.Normal, nv, now + LEASE⟩, ms,
                  PhatLog.add pl (op + 1) acmd⟩ acn).rstate.opNumber,
            rn, now + LEASE⟩) := by
    unfold Replica.prepare
    rw [if_neg (by show ¬(v < v); omega), if_neg (by show ¬(v < v); omega),
      if_neg (by show ¬(Status.Normal ≠ Status.Normal); simp),
      if_neg (by show ¬(op + 1 ≤ op); omega), if_neg (by show ¬(op + 1 < op + 1); omega)]
  rw [hb]
  by_cases hc1 : acn ≤ c
  · rw [doCommit_le _ _ (by show acn ≤ c; omega)]
    exact ⟨rfl, rfl, rfl, rfl, fun _ => ⟨by show c = max c acn; omega, rfl⟩,
      fun hlt => absurd hlt (by omega)⟩
  · by_cases hc2 : acn ≤ op + 1
    · rw [doCommit_mid _ _ (by show c < acn; omega) (by show acn ≤ op + 1; omega)]
      exact ⟨rfl, rfl, rfl, rfl, fun _ => ⟨by show acn = max c acn; omega, rfl⟩,
        fun hlt => absurd hlt (by omega)⟩
    · rw [doCommit_overshoot _ _ (by show c < acn; omega) (by show op + 1 < acn; omega)]
      exact ⟨rfl, rfl, rfl, rfl, fun hle => absurd hle (by omega), fun _ => ⟨rfl, rfl⟩⟩

/-- Witness for C5: the well-formed Prepare `argsW5` (view 0, op 4, commit 4)
accepted by `rC5` at instant 100. -/
theorem prepare_accept_updates_witness :
    argsW5.view = rC5.rstate.view ∧ rC5.rstate.status = Status.Normal ∧
      argsW5.opNumber = rC5.rstate.opNumber + 1 ∧
      rC5.rstate.commitNumber ≤ rC5.rstate.opNumber ∧
      ((rC5.prepare argsW5 100).2 =
          Except.ok ⟨rC5.rstate.view, rC5.rstate.opNumber + 1, rC5.rstate.replicaNumber,
            100 + LEASE⟩ ∧
        (rC5.prepare argsW5 100).1.rstate.leaseDeadline = 100 + LEASE ∧
        (rC5.prepare argsW5 100).1.rstate.opNumber = rC5.rstate.opNumber + 1 ∧
        (rC5.prepare argsW5 100).1.phatlog =
          rC5.phatlog.add (rC5.rstate.opNumber + 1) argsW5.command ∧
        (argsW5.commitNumber ≤ rC5.rstate.opNumber + 1 →
          (rC5.prepare argsW5 100).1.rstate.commitNumber =
              max rC5.rstate.commitNumber argsW5.commitNumber ∧
            (rC5.prepare argsW5 100).1.rstate.status = Status.Normal) ∧
        (rC5.rstate.opNumber + 1 < argsW5.commitNumber →
          (rC5.prepare argsW5 100).1.rstate.commitNumber = rC5.rstate.commitNumber ∧
            (rC5.prepare argsW5 100).1.rstate.status = Status.Recovery)) :=
  ⟨by decide, by decide, by decide, by decide,
    prepare_accept_updates rC5 argsW5 100 (by decide) (by decide) (by decide) (by decide)⟩

/-- C6: a Prepare whose view is strictly below the replica's view is refused
with the wrong-view error and the replica is returned completely unchanged —
same log, op number, commit number, view and status — and no lease is
granted. -/
theorem prepare_wrong_view_rejected (r : Replica) (args : PrepareArgs) (now : Nat)
    (h : args.view < r.rstate.view) :
    r.prepare args now = (r, Except.error PrepErr.wrongView) := by
  unfold Replica.prepare
  rw [if_neg (by omega), if_pos h]

/-- Witness for C6: a Prepare from the deposed master of view 1 arriving at
a replica that has advanced to view 2. -/
theorem prepare_wrong_view_rejected_witness :
    argsW6.view < rW6.rstate.view ∧
      rW6.prepare argsW6 5 = (rW6, Except.error PrepErr.wrongView) :=
  ⟨by decide, prepare_wrong_view_rejected rW6 argsW6 5 (by decide)⟩

/-! ### Sorted-times length preservation -/

lemma insertSorted_length (x : Nat) (l : List Nat) :
    (insertSorted x l).length = l.length + 1 := by
  induction l with
  | nil => rfl
  | cons y ys ih =>
    simp only [insertSorted]
    split
    · simp
    · simp [ih]

lemma sortTimes_length (l : List Nat) : (sortTimes l).length = l.length := by
  induction l with
  | nil => rfl
  | cons x xs ih =>
    simp only [sortTimes, List.foldr_cons] at ih ⊢
    rw [insertSorted_length, ih, List.length_cons]

/-- C7 (amended): on every heartbeat receipt that passes the NREPLICAS
assertion, the master's new lease deadline equals the F-th largest of the
grant timestamps now stored in heartbeats minus MAX_CLOCK_DRIFT, and the
replica lease timer is extended to exactly that instant; the master renewal
timer, however, is reset to fire at `now + (deadline - now) / RENEW_FACTOR`
(halfway to expiry for RENEW_FACTOR = 2), not at the deadline itself. -/
theorem heartbeat_lease_computation (r : Replica) (p t now : Nat)
    (hm : r.isMaster = true)
    (hlen : (hbInsert r.mstate.heartbeats p t).length = NREPLICAS) :
    ∃ s, r.heartbeat p t now = some s ∧
      s.rstate.leaseDeadline =
        kthLargest F ((hbInsert r.mstate.heartbeats p t).map Prod.snd) - MAX_CLOCK_DRIFT ∧
      s.mstate.renewalDeadline = renewalAt now s.rstate.leaseDeadline ∧
      s.mstate.heartbeats = hbInsert r.mstate.heartbeats p t := by
  have hslen :
      (sortTimes ((hbInsert r.mstate.heartbeats p t).map Prod.snd)).length = NREPLICAS := by
    rw [sortTimes_length, List.length_map, hlen]
  have hk : kthLargest F ((hbInsert r.mstate.heartbeats p t).map Prod.snd) =
      (sortTimes ((hbInsert r.mstate.heartbeats p t).map Prod.snd)).getD F 0 := by
    unfold kthLargest
    rw [List.length_map, hlen]
    have hnf : NREPLICAS - F = F := by decide
    rw [hnf]
  unfold Replica.heartbeat
  rw [if_pos hm, if_pos hslen, hk]
  exact ⟨_, rfl, rfl, rfl, rfl⟩

/-- Witness for C7: master `rW7` receives replica 1's grant for instant 3000
at instant 1000, completing the NREPLICAS-sized heartbeat map. -/
theorem heartbeat_lease_computation_witness :
    rW7.isMaster = true ∧ (hbInsert rW7.mstate.heartbeats 1 3000).length = NREPLICAS ∧
      (∃ s, rW7.heartbeat 1 3000 1000 = some s ∧
        s.rstate.leaseDeadline =
          kthLargest F ((hbInsert rW7.mstate.heartbeats 1 3000).map Prod.snd) -
            MAX_CLOCK_DRIFT ∧
        s.mstate.renewalDeadline = renewalAt 1000 s.rstate.leaseDeadline ∧
        s.mstate.heartbeats = hbInsert rW7.mstate.heartbeats 1 3000) :=
  ⟨by decide, by decide, heartbeat_lease_computation rW7 1 3000 1000 (by decide) (by decide)⟩

/-- C10: GetMaster returns the "Master Failover" error exactly when the local
status is not Normal, and otherwise replies with the facade's master id
whether or not this replica is itself that master. -/
theorem getMaster_status_spec (r : Replica) :
    GetMaster r = if r.rstate.status = Status.Normal then Except.ok (getMasterId r)
      else Except.error masterFailoverMsg := by
  unfold GetMaster
  by_cases h : r.rstate.status = Status.Normal
  · rw [if_neg (by simp [h]), if_pos h]
  · rw [if_pos h, if_neg h]
